import Mathlib

/-!
Verification of `workload-recommendation-parser.py` against its specification.

The program is a linear pipeline: fetch a JSON document of workload
recommendations, locate one workload by (name, namespace), translate its
per-container recommendation fields into a Kubernetes patch document, and
emit it.  The network fetch (`fetch_cast_workloads`) is an external effect
and is not modelled; every claim is about the pipeline from the decoded
JSON value onward, which is pure.

Modelling decisions (shallow embedding of the Python source):

* JSON numbers are embedded as exact fractions `PyNum` (integer numerator,
  natural denominator).  A JSON integer such as `1` has denominator 1; a
  JSON decimal such as `0.25` has denominator > 1, mirroring the Python
  `int` / `float` type split that `str` renders differently.  Binary
  floating point is not modelled: multiplication by 1024 is exact in
  binary floating point, so the memory conversion path is faithfully
  captured by exact arithmetic.
* A possibly-missing dictionary key is an `Option` field; accessing a
  missing key the way `workload["name"]` does is a Python `KeyError`,
  embedded as the `Except` error path carrying the key.
* `sys.exit(1)` paths and stderr prints of the driver are embedded as a
  `RunResult` value: exit code, the emitted document (if any), and the
  diagnostic lines printed to stderr.
-/

/-- A JSON number as an exact fraction: `num / den`.  `den = 1` plays the
role of a Python `int`; `den ≠ 1` that of a `float` carrying a fractional
representation. -/
structure PyNum where
  num : Int
  den : Nat
deriving DecidableEq, Repr

/-- Embedding of `int(g * 1024)` from the source (lines 97 and 111):
Python `int()` truncates toward zero, which is `Int.tdiv`. -/
def pyIntTimes1024 (g : PyNum) : Int :=
  Int.tdiv (g.num * 1024) (g.den : Int)

/-- Modelled from the spec: the `floor(value * 1024)` conversion the spec
prescribes for memory values.  `Int.fdiv` is floor division. -/
def floorTimes1024 (g : PyNum) : Int :=
  Int.fdiv (g.num * 1024) (g.den : Int)

/-- Decimal digits of the fractional part `num/den` (with `num < den`),
produced by long division; `fuel` bounds the recursion.  All fractions the
program meets come from finite decimals, whose expansion terminates. -/
def fracDigitsAux : Nat → Nat → Nat → String
  | 0, _, _ => ""
  | _, 0, _ => ""
  | fuel+1, num, den =>
      toString (num * 10 / den) ++ fracDigitsAux fuel (num * 10 % den) den

/-- Embedding of Python `str` on a JSON number (source lines 93 and 107):
an `int` renders with no decimal point, a `float` with one. -/
def pyNumStr (q : PyNum) : String :=
  if q.den == 1 then toString q.num
  else
    let s := if q.num < 0 then "-" else ""
    let a := q.num.natAbs
    let fr := a % q.den
    s ++ toString (a / q.den) ++ "." ++
      (if fr == 0 then "0" else fracDigitsAux 40 fr q.den)

/-- The contents of a `requests` or `limits` dictionary of a
recommendation.  Besides the two keys the program reads, the dictionary
may hold further keys; only their number matters (Python dictionary
truthiness depends on the dictionary being non-empty), so they are
recorded as a count `extra`. -/
structure ResourceRec where
  cpuCores : Option PyNum
  memoryGib : Option PyNum
  extra : Nat
deriving DecidableEq, Repr

/-- A container's `recommendation` value: optional `requests` and
`limits` dictionaries (`none` embeds an absent or null key). -/
structure Recommendation where
  requests : Option ResourceRec
  limits : Option ResourceRec
deriving DecidableEq, Repr

/-- One element of a workload's `containers` array. -/
structure Container where
  name : String
  recommendation : Option Recommendation
deriving DecidableEq, Repr

/-- One element of the `workloads` array.  `name` and `nspace` (the
`namespace` key) are `Option` because `find_workload` accesses them with
raw indexing, which can raise `KeyError`; `kind` and `containers` are only
read after a successful match, on records the wire contract shapes. -/
structure Workload where
  name : Option String
  nspace : Option String
  kind : String
  containers : List Container
deriving DecidableEq, Repr

/-- The decoded top-level API response; `workloads = none` embeds a JSON
object lacking the `workloads` key. -/
structure WorkloadsData where
  workloads : Option (List Workload)
deriving DecidableEq, Repr

/-- Emitted `requests` or `limits` map of one output container block. -/
structure ResourceFields where
  cpu : Option String
  memory : Option String
deriving DecidableEq, Repr

/-- Emitted `resources` object of one output container block. -/
structure ResourceBlock where
  requests : Option ResourceFields
  limits : Option ResourceFields
deriving DecidableEq, Repr

/-- One element of the output `spec.template.spec.containers` array. -/
structure ContainerPatch where
  name : String
  resources : ResourceBlock
deriving DecidableEq, Repr

/-- Output `metadata` object. -/
structure PatchMetadata where
  name : String
  nspace : String
deriving DecidableEq, Repr

/-- Output `spec.template.spec` object. -/
structure PatchTemplateSpec where
  containers : List ContainerPatch
deriving DecidableEq, Repr

/-- Output `spec.template` object. -/
structure PatchTemplate where
  spec : PatchTemplateSpec
deriving DecidableEq, Repr

/-- Output `spec` object. -/
structure PatchSpec where
  template : PatchTemplate
deriving DecidableEq, Repr

/-- The output patch document (source lines 46-60). -/
structure Patch where
  apiVersion : String
  kind : String
  metadata : PatchMetadata
  spec : PatchSpec
deriving DecidableEq, Repr

/-- The patch skeleton of source lines 46-60 with its container list. -/
def mkPatch (kind nm ns : String) (blocks : List ContainerPatch) : Patch :=
  { apiVersion := "apps/v1"
    kind := kind
    metadata := { name := nm, nspace := ns }
    spec := { template := { spec := { containers := blocks } } } }

/-- The container blocks of a patch, at `spec.template.spec.containers`. -/
def patchContainers (p : Patch) : List ContainerPatch :=
  p.spec.template.spec.containers

/-- Failure modes of `find_workload`: the `sys.exit(1)` on a response
without a `workloads` key (source lines 30-32), and an uncaught Python
`KeyError` from raw indexing (source line 35), carrying the key. -/
inductive FindErr where
  | schemaError
  | keyError (field : String)
deriving DecidableEq, Repr

/-- Embedding of the scan of source lines 34-38.  For each element,
`workload["name"]` is read unconditionally; the Python `and` is lazy, so
`workload["namespace"]` is read only when the name matched. -/
def findWorkloadAux (name nspace : String) : List Workload → Except FindErr (Option Workload)
  | [] => .ok none
  | w :: rest =>
    match w.name with
    | none => .error (.keyError ("name"))
    | some n =>
      if n = name then
        match w.nspace with
        | none => .error (.keyError ("namespace"))
        | some s =>
          if s = nspace then .ok (some w) else findWorkloadAux name nspace rest
      else findWorkloadAux name nspace rest

/-- Embedding of `find_workload` (source lines 28-38): schema check for
the `workloads` key, then the linear scan.  `.ok none` is the not-found
result (Python `return None`). -/
def find_workload (d : WorkloadsData) (name : String) (nspace : String := "default") :
    Except FindErr (Option Workload) :=
  match d.workloads with
  | none => .error .schemaError
  | some ws => findWorkloadAux name nspace ws

/-- Diagnostic lines the program prints to stderr (source lines 31, 70,
142, 148) plus the traceback of an uncaught `KeyError`. -/
inductive Diag where
  | schemaFormat
  | workloadNotFound (name nspace : String)
  | containerNotFound (cname : String)
  | noRecommendations (name : String)
  | uncaughtKeyError (field : String)
deriving DecidableEq, Repr

/-- Python truthiness of `recommendation.get("requests")` (and of
`"limits"`, source lines 87 and 101): the key is present and its
dictionary is non-empty. -/
def truthyRR : Option ResourceRec → Bool
  | none => false
  | some rr => rr.cpuCores.isSome || rr.memoryGib.isSome || rr.extra != 0

/-- The fields written into one emitted `requests`/`limits` map (source
lines 92-98 and 106-112): `cpuCores` copied through `str`, `memoryGib`
through `int(x * 1024)` with the `Mi` suffix. -/
def fieldsOf (rr : ResourceRec) : ResourceFields :=
  { cpu := rr.cpuCores.map pyNumStr
    memory := rr.memoryGib.map (fun g => toString (pyIntTimes1024 g) ++ "Mi") }

/-- The emitted map for one side (`requests` or `limits`): present exactly
when the recommendation's map is truthy. -/
def sideFields (o : Option ResourceRec) : Option ResourceFields :=
  if truthyRR o then o.map fieldsOf else none

/-- The processing of one considered container (source lines 76-116): skip
when `recommendation` is falsy; otherwise build the resource block and
keep it only when the `resources` dictionary is non-empty, i.e. when at
least one of the two side maps was created. -/
def emitContainer (c : Container) : Option ContainerPatch :=
  match c.recommendation with
  | none => none
  | some r =>
    let reqs := sideFields r.requests
    let lims := sideFields r.limits
    if reqs.isSome || lims.isSome then
      some { name := c.name, resources := { requests := reqs, limits := lims } }
    else none

/-- The container filter of source lines 62-73.  The guard is Python
truthiness of `container_name` (`if container_name:`, line 64): both an
absent filter and the empty string are falsy and mean "all containers".
With a truthy filter, the loop with `break` keeps exactly the first
container of that name, and reports the name when none matches. -/
def containersToUpdate (w : Workload) : Option String → Except String (List Container)
  | some cn =>
    if cn = "" then .ok w.containers
    else
      match w.containers.find? (fun c => c.name == cn) with
      | some c => .ok [c]
      | none => .error cn
  | none => .ok w.containers

/-- Embedding of `create_kubernetes_patch` (source lines 40-122).  The
result pairs the returned value (`none` embeds Python `None`) with the
diagnostics printed to stderr; the `Except` error is an uncaught
`KeyError` on the named key.  Evaluation order follows the source: the
patch skeleton reads `kind`, `name`, `namespace` (lines 46-60) before the
container filter runs (lines 62-71). -/
def create_kubernetes_patch (workload : Option Workload) (container_name : Option String) :
    Except String (Option Patch × List Diag) :=
  match workload with
  | none => .ok (none, [])
  | some w =>
    match w.name with
    | none => .error ("name")
    | some nm =>
      match w.nspace with
      | none => .error ("namespace")
      | some ns =>
        match containersToUpdate w container_name with
        | .error cn => .ok (none, [.containerNotFound cn])
        | .ok cs =>
          let blocks := cs.filterMap emitContainer
          if blocks.isEmpty then .ok (none, [])
          else .ok (some (mkPatch w.kind nm ns blocks), [])

/-- Observable outcome of one run of the driver after the fetch: process
exit code, the emitted patch document (to stdout or the output file), and
the stderr diagnostics. -/
structure RunResult where
  exitCode : Nat
  output : Option Patch
  errLines : List Diag
deriving DecidableEq, Repr

/-- Embedding of `main` after the fetch (source lines 137-160): locate the
workload, build the patch, emit it; every failure path exits with code 1
and emits nothing. -/
def runPipeline (d : WorkloadsData) (name nspace : String) (container : Option String) :
    RunResult :=
  match find_workload d name nspace with
  | .error .schemaError => { exitCode := 1, output := none, errLines := [.schemaFormat] }
  | .error (.keyError k) => { exitCode := 1, output := none, errLines := [.uncaughtKeyError k] }
  | .ok none => { exitCode := 1, output := none, errLines := [.workloadNotFound name nspace] }
  | .ok (some w) =>
    match create_kubernetes_patch (some w) container with
    | .error k => { exitCode := 1, output := none, errLines := [.uncaughtKeyError k] }
    | .ok (none, ds) =>
        { exitCode := 1, output := none, errLines := ds ++ [.noRecommendations name] }
    | .ok (some p, ds) => { exitCode := 0, output := some p, errLines := ds }

/-- Selector for the two symmetric sides of a recommendation:
`true` picks `requests`, `false` picks `limits`. -/
def recSide (sel : Bool) (r : Recommendation) : Option ResourceRec :=
  if sel then r.requests else r.limits

/-- Selector for the two symmetric sides of an emitted resource block. -/
def blockSide (sel : Bool) (b : ResourceBlock) : Option ResourceFields :=
  if sel then b.requests else b.limits

/-- Number of cpu/memory fields an emitted container block carries. -/
def fieldCount (b : ContainerPatch) : Nat :=
  (match b.resources.requests with
   | none => 0
   | some f => (if f.cpu.isSome then 1 else 0) + (if f.memory.isSome then 1 else 0)) +
  (match b.resources.limits with
   | none => 0
   | some f => (if f.cpu.isSome then 1 else 0) + (if f.memory.isSome then 1 else 0))

/-- An element the scan of `find_workload` walks past without matching and
without raising: its `name` key is present, and when it equals the target
the `namespace` key is present too but differs from the target. -/
def scanSkips (tn tns : String) (v : Workload) : Prop :=
  ∃ m, v.name = some m ∧ (m = tn → ∃ s, v.nspace = some s ∧ s ≠ tns)

/-! ### Helper lemmas about the patch builder -/

lemma sideFields_isSome (o : Option ResourceRec) : (sideFields o).isSome = truthyRR o := by
  cases o with
  | none => rfl
  | some rr => cases h : truthyRR (some rr) <;> simp [sideFields, h]

lemma emitContainer_name (c : Container) (b : ContainerPatch)
    (h : emitContainer c = some b) : b.name = c.name := by
  cases hr : c.recommendation with
  | none => simp [emitContainer, hr] at h
  | some r =>
    simp only [emitContainer, hr] at h
    by_cases hc : ((sideFields r.requests).isSome || (sideFields r.limits).isSome) = true
    · rw [if_pos hc] at h
      cases h
      rfl
    · rw [if_neg hc] at h
      cases h

lemma emitContainer_isSome_iff (c : Container) :
    ((emitContainer c).isSome = true) ↔
      ∃ r, c.recommendation = some r ∧
        (truthyRR r.requests = true ∨ truthyRR r.limits = true) := by
  cases hr : c.recommendation with
  | none => simp [emitContainer, hr]
  | some r =>
    simp only [emitContainer, hr]
    by_cases hc : ((sideFields r.requests).isSome || (sideFields r.limits).isSome) = true
    · rw [if_pos hc]
      simp only [Option.isSome_some, true_iff]
      refine ⟨r, rfl, ?_⟩
      rw [Bool.or_eq_true, sideFields_isSome, sideFields_isSome] at hc
      exact hc
    · rw [if_neg hc]
      simp only [Option.isSome_none, Bool.false_eq_true, false_iff]
      rintro ⟨r2, hr2, hor⟩
      injection hr2 with he
      subst he
      rw [Bool.or_eq_true, sideFields_isSome, sideFields_isSome] at hc
      exact hc hor

lemma emitContainer_of_side (c : Container) (r : Recommendation) (sel : Bool) (rr : ResourceRec)
    (hr : c.recommendation = some r) (hrr : recSide sel r = some rr)
    (ht : truthyRR (some rr) = true) :
    ∃ b, emitContainer c = some b ∧ b.name = c.name ∧
      blockSide sel b.resources = some (fieldsOf rr) := by
  have hsf : sideFields (recSide sel r) = some (fieldsOf rr) := by
    rw [hrr]
    simp [sideFields, ht]
  cases sel with
  | true =>
    have hreq : sideFields r.requests = some (fieldsOf rr) := by
      simpa [recSide] using hsf
    refine ⟨{ name := c.name
            , resources := { requests := some (fieldsOf rr), limits := sideFields r.limits } },
           ?_, rfl, ?_⟩
    · simp [emitContainer, hr, hreq]
    · simp [blockSide]
  | false =>
    have hlim : sideFields r.limits = some (fieldsOf rr) := by
      simpa [recSide] using hsf
    refine ⟨{ name := c.name
            , resources := { requests := sideFields r.requests, limits := some (fieldsOf rr) } },
           ?_, rfl, ?_⟩
    · simp [emitContainer, hr, hlim]
    · simp [blockSide]

lemma create_eval (w : Workload) (f : Option String) (nm ns : String) (cs : List Container)
    (hnm : w.name = some nm) (hns : w.nspace = some ns)
    (hcs : containersToUpdate w f = .ok cs) :
    create_kubernetes_patch (some w) f =
      if (cs.filterMap emitContainer).isEmpty then .ok (none, [])
      else .ok (some (mkPatch w.kind nm ns (cs.filterMap emitContainer)), []) := by
  simp only [create_kubernetes_patch, hnm, hns, hcs]

lemma create_inv (w : Workload) (f : Option String) (nm ns : String) (cs : List Container)
    (p : Patch) (ds : List Diag)
    (hnm : w.name = some nm) (hns : w.nspace = some ns)
    (hcs : containersToUpdate w f = .ok cs)
    (hp : create_kubernetes_patch (some w) f = .ok (some p, ds)) :
    p = mkPatch w.kind nm ns (cs.filterMap emitContainer) ∧ ds = [] := by
  rw [create_eval w f nm ns cs hnm hns hcs] at hp
  by_cases hbe : (cs.filterMap emitContainer).isEmpty = true
  · rw [if_pos hbe] at hp
    simp at hp
  · rw [if_neg hbe] at hp
    simp only [Except.ok.injEq, Prod.mk.injEq] at hp
    obtain ⟨h1, h2⟩ := hp
    exact ⟨(Option.some.inj h1).symm, h2.symm⟩

lemma filterMap_emit_names (cs : List Container) :
    ((cs.filterMap emitContainer).map ContainerPatch.name) =
      ((cs.filter fun c => (emitContainer c).isSome).map Container.name) := by
  induction cs with
  | nil => rfl
  | cons c rest ih =>
    cases h : emitContainer c with
    | none => simp [List.filterMap_cons, List.filter_cons, h, ih]
    | some b =>
      simp [List.filterMap_cons, List.filter_cons, h, ih, emitContainer_name c b h]

lemma containersToUpdate_sublist (w : Workload) (f : Option String) (cs : List Container)
    (h : containersToUpdate w f = .ok cs) : cs.Sublist w.containers := by
  cases f with
  | none =>
    simp only [containersToUpdate, Except.ok.injEq] at h
    rw [← h]
  | some cn =>
    simp only [containersToUpdate] at h
    by_cases hcn : cn = ""
    · rw [if_pos hcn] at h
      simp only [Except.ok.injEq] at h
      rw [← h]
    · rw [if_neg hcn] at h
      cases hf : w.containers.find? (fun c => c.name == cn) with
      | none => rw [hf] at h; cases h
      | some c =>
        rw [hf] at h
        simp only [Except.ok.injEq] at h
        rw [← h]
        exact List.singleton_sublist.mpr (List.mem_of_find?_eq_some hf)

/-! ### Helper lemmas about the locator -/

lemma findWorkloadAux_cons_skip (tn tns : String) (v : Workload) (rest : List Workload)
    (hv : scanSkips tn tns v) :
    findWorkloadAux tn tns (v :: rest) = findWorkloadAux tn tns rest := by
  obtain ⟨m, hm, himp⟩ := hv
  simp only [findWorkloadAux, hm]
  by_cases hmn : m = tn
  · obtain ⟨s, hs, hsne⟩ := himp hmn
    simp [hmn, hs, hsne]
  · simp [hmn]

lemma findWorkloadAux_append_skip (tn tns : String) (l1 rest : List Workload)
    (hskip : ∀ u ∈ l1, scanSkips tn tns u) :
    findWorkloadAux tn tns (l1 ++ rest) = findWorkloadAux tn tns rest := by
  induction l1 with
  | nil => rfl
  | cons v vs ih =>
    rw [List.cons_append, findWorkloadAux_cons_skip tn tns v _ (hskip v (by simp))]
    exact ih (fun u hu => hskip u (by simp [hu]))

lemma findWorkloadAux_skip_all (tn tns : String) (ws : List Workload)
    (hskip : ∀ u ∈ ws, scanSkips tn tns u) :
    findWorkloadAux tn tns ws = .ok none := by
  have h := findWorkloadAux_append_skip tn tns ws [] hskip
  rw [List.append_nil] at h
  exact h

lemma findWorkloadAux_ok_some (tn tns : String) (ws : List Workload) (w : Workload)
    (h : findWorkloadAux tn tns ws = .ok (some w)) :
    w.name = some tn ∧ w.nspace = some tns := by
  induction ws with
  | nil => cases h
  | cons v rest ih =>
    cases hv : v.name with
    | none => simp [findWorkloadAux, hv] at h
    | some m =>
      by_cases hm : m = tn
      · cases hs : v.nspace with
        | none => simp [findWorkloadAux, hv, hm, hs] at h
        | some s =>
          by_cases hst : s = tns
          · simp only [findWorkloadAux, hv, hs, if_pos hm, if_pos hst] at h
            simp only [Except.ok.injEq, Option.some.injEq] at h
            rw [← h]
            exact ⟨hv.trans (by rw [hm]), hs.trans (by rw [hst])⟩
          · simp only [findWorkloadAux, hv, hs, if_pos hm, if_neg hst] at h
            exact ih h
      · simp only [findWorkloadAux, hv, if_neg hm] at h
        exact ih h

/-- The container list of `mkPatch` is the block list it was given. -/
lemma patchContainers_mkPatch (kind nm ns : String) (blocks : List ContainerPatch) :
    patchContainers (mkPatch kind nm ns blocks) = blocks := rfl

/-! ### Concrete inputs used by the claim theorems and witnesses -/

def c4Container : Container :=
  { name := "app"
  , recommendation := some
      { requests := some { cpuCores := some ⟨1, 4⟩, memoryGib := some ⟨1, 1⟩, extra := 0 }
      , limits := some { cpuCores := some ⟨1, 2⟩, memoryGib := some ⟨2, 1⟩, extra := 0 } } }

def c4Workload : Workload :=
  { name := some ("web"), nspace := some ("default"), kind := "Deployment"
  , containers := [c4Container] }

def c4Patch : Patch :=
  mkPatch ("Deployment") ("web") ("default")
    [{ name := "app"
     , resources :=
        { requests := some { cpu := some ("0.25"), memory := some ("1024Mi") }
        , limits := some { cpu := some ("0.5"), memory := some ("2048Mi") } } }]

def c3Container : Container :=
  { name := "app"
  , recommendation := some
      { requests := some { cpuCores := some ⟨1, 4⟩, memoryGib := none, extra := 0 }
      , limits := none } }

def c3Workload : Workload :=
  { name := some ("web"), nspace := some ("default"), kind := "Deployment"
  , containers := [c3Container] }

def c1Container : Container :=
  { name := "app"
  , recommendation := some
      { requests := some { cpuCores := none, memoryGib := some ⟨-1, 2048⟩, extra := 0 }
      , limits := none } }

def c1Workload : Workload :=
  { name := some ("web"), nspace := some ("default"), kind := "Deployment"
  , containers := [c1Container] }

def c1wContainer : Container :=
  { name := "app"
  , recommendation := some
      { requests := none
      , limits := some { cpuCores := none, memoryGib := some ⟨3, 2⟩, extra := 0 } } }

def c1wWorkload : Workload :=
  { name := some ("web"), nspace := some ("default"), kind := "Deployment"
  , containers := [c1wContainer] }

def c2Container : Container :=
  { name := "app"
  , recommendation := some
      { requests := some { cpuCores := none, memoryGib := none, extra := 1 }
      , limits := none } }

def c2Workload : Workload :=
  { name := some ("web"), nspace := some ("default"), kind := "Deployment"
  , containers := [c2Container] }

def c8NoRec : Container := { name := "norec", recommendation := none }

def c8Workload : Workload :=
  { name := some ("web"), nspace := some ("default"), kind := "Deployment"
  , containers := [c8NoRec, c4Container] }

def c5Other : Workload :=
  { name := some ("other"), nspace := some ("default"), kind := "Deployment"
  , containers := [] }

def c5First : Workload :=
  { name := some ("web"), nspace := some ("default"), kind := "Deployment"
  , containers := [c4Container] }

def c5Dup : Workload :=
  { name := some ("web"), nspace := some ("default"), kind := "StatefulSet"
  , containers := [] }

def c10Good : Workload :=
  { name := some ("web"), nspace := some ("default"), kind := "Deployment"
  , containers := [] }

def c10NoName : Workload :=
  { name := none, nspace := some ("default"), kind := "Deployment", containers := [] }

def c10NoNs : Workload :=
  { name := some ("web"), nspace := none, kind := "Deployment", containers := [] }

def c10BadEarlier : Workload :=
  { name := some ("aaa"), nspace := none, kind := "Deployment", containers := [] }

def c6DataMissing : WorkloadsData := { workloads := none }

def c6DataNoMatch : WorkloadsData := { workloads := some [c5Other] }

/-! ### Claims -/

/-- Claim C4: for the synthetic input of one workload with one container whose
recommendation has requests cpuCores 0.25, memoryGib 1 and limits
cpuCores 0.5, memoryGib 2, the produced patch contains exactly one container
block with requests cpu "0.25", memory "1024Mi" and limits cpu "0.5",
memory "2048Mi", inside the outer document with apiVersion "apps/v1" and
kind, name and namespace copied from the workload. -/
theorem C4_round_trip :
    create_kubernetes_patch (some c4Workload) none = .ok (some c4Patch, []) ∧
    patchContainers c4Patch =
      [{ name := "app"
       , resources :=
          { requests := some { cpu := some ("0.25"), memory := some ("1024Mi") }
          , limits := some { cpu := some ("0.5"), memory := some ("2048Mi") } } }] ∧
    c4Patch.apiVersion = "apps/v1" ∧
    c4Patch.kind = c4Workload.kind ∧
    some c4Patch.metadata.name = c4Workload.name ∧
    some c4Patch.metadata.nspace = c4Workload.nspace :=
  ⟨rfl, rfl, rfl, rfl, rfl, rfl⟩

/-- Claim C3: for every considered container whose recommendation's requests
(or limits, selected by `sel`) map contains a cpuCores number, the emitted cpu
field on that side equals the decimal string of that number, copied verbatim
with no rounding. -/
theorem C3_cpu_copied_verbatim (w : Workload) (f : Option String) (nm ns : String)
    (cs : List Container) (c : Container) (r : Recommendation) (sel : Bool)
    (rr : ResourceRec) (q : PyNum)
    (hnm : w.name = some nm) (hns : w.nspace = some ns)
    (hcs : containersToUpdate w f = .ok cs) (hc : c ∈ cs)
    (hr : c.recommendation = some r) (hrr : recSide sel r = some rr)
    (hq : rr.cpuCores = some q) :
    ∃ p, create_kubernetes_patch (some w) f = .ok (some p, []) ∧
      ∃ b ∈ patchContainers p, b.name = c.name ∧
        ∃ flds, blockSide sel b.resources = some flds ∧
          flds.cpu = some (pyNumStr q) := by
  have ht : truthyRR (some rr) = true := by simp [truthyRR, hq]
  obtain ⟨b, hb, hbn, hside⟩ := emitContainer_of_side c r sel rr hr hrr ht
  have hmem : b ∈ cs.filterMap emitContainer := List.mem_filterMap.mpr ⟨c, hc, hb⟩
  have hne : (cs.filterMap emitContainer).isEmpty = false := by
    cases hfm : cs.filterMap emitContainer with
    | nil => rw [hfm] at hmem; cases hmem
    | cons x xs => rfl
  refine ⟨mkPatch w.kind nm ns (cs.filterMap emitContainer), ?_, b, ?_, hbn,
    fieldsOf rr, hside, ?_⟩
  · rw [create_eval w f nm ns cs hnm hns hcs]
    simp [hne]
  · rw [patchContainers_mkPatch]
    exact hmem
  · simp [fieldsOf, hq]

/-- Witness for claim C3 at a concrete input: a single-container workload with
requests cpuCores 1/4 yields an emitted cpu field "0.25". -/
theorem C3_witness :
    containersToUpdate c3Workload none = .ok [c3Container] ∧
    (∃ p, create_kubernetes_patch (some c3Workload) none = .ok (some p, []) ∧
      ∃ b ∈ patchContainers p, b.name = c3Container.name ∧
        ∃ flds, blockSide true b.resources = some flds ∧
          flds.cpu = some (pyNumStr ⟨1, 4⟩)) :=
  ⟨rfl, C3_cpu_copied_verbatim c3Workload none ("web") ("default") [c3Container]
    c3Container _ true _ ⟨1, 4⟩ rfl rfl rfl (List.mem_singleton.mpr rfl) rfl rfl rfl⟩

/-- Claim C1 (amended): for every nonnegative memory value g under requests or
limits of a considered container's recommendation, the emitted memory field is
the decimal representation of floor(g*1024) followed by "Mi".  (For negative
fractional g the source's Python int() truncates toward zero instead of
flooring; see the counterexample.) -/
theorem C1_memory_floor (w : Workload) (f : Option String) (nm ns : String)
    (cs : List Container) (c : Container) (r : Recommendation) (sel : Bool)
    (rr : ResourceRec) (g : PyNum)
    (hnm : w.name = some nm) (hns : w.nspace = some ns)
    (hcs : containersToUpdate w f = .ok cs) (hc : c ∈ cs)
    (hr : c.recommendation = some r) (hrr : recSide sel r = some rr)
    (hg : rr.memoryGib = some g) (hpos : 0 ≤ g.num) :
    ∃ p, create_kubernetes_patch (some w) f = .ok (some p, []) ∧
      ∃ b ∈ patchContainers p, b.name = c.name ∧
        ∃ flds, blockSide sel b.resources = some flds ∧
          flds.memory = some (toString (floorTimes1024 g) ++ "Mi") := by
  have ht : truthyRR (some rr) = true := by simp [truthyRR, hg]
  obtain ⟨b, hb, hbn, hside⟩ := emitContainer_of_side c r sel rr hr hrr ht
  have hmem : b ∈ cs.filterMap emitContainer := List.mem_filterMap.mpr ⟨c, hc, hb⟩
  have hne : (cs.filterMap emitContainer).isEmpty = false := by
    cases hfm : cs.filterMap emitContainer with
    | nil => rw [hfm] at hmem; cases hmem
    | cons x xs => rfl
  have hflr : floorTimes1024 g = pyIntTimes1024 g := by
    unfold floorTimes1024 pyIntTimes1024
    exact Int.fdiv_eq_tdiv (mul_nonneg hpos (by norm_num)) (Int.natCast_nonneg _)
  refine ⟨mkPatch w.kind nm ns (cs.filterMap emitContainer), ?_, b, ?_, hbn,
    fieldsOf rr, hside, ?_⟩
  · rw [create_eval w f nm ns cs hnm hns hcs]
    simp [hne]
  · rw [patchContainers_mkPatch]
    exact hmem
  · simp [fieldsOf, hg, hflr]

/-- Witness for the amended claim C1 at a concrete input: memoryGib 3/2 under
limits emits floor(1.5*1024) = 1536 with suffix, i.e. "1536Mi". -/
theorem C1_witness :
    (0 ≤ (⟨3, 2⟩ : PyNum).num) ∧
    (∃ p, create_kubernetes_patch (some c1wWorkload) none = .ok (some p, []) ∧
      ∃ b ∈ patchContainers p, b.name = c1wContainer.name ∧
        ∃ flds, blockSide false b.resources = some flds ∧
          flds.memory = some (toString (floorTimes1024 ⟨3, 2⟩) ++ "Mi")) :=
  ⟨by decide, C1_memory_floor c1wWorkload none ("web") ("default") [c1wContainer]
    c1wContainer _ false _ ⟨3, 2⟩ rfl rfl rfl (List.mem_singleton.mpr rfl) rfl rfl rfl
    (by decide)⟩

/-- Claim C1 counterexample: for the memory value g = -1/2048 GiB the program
emits "0Mi" (Python int() truncates toward zero), while the claim's
floor(g*1024) is -1, i.e. "-1Mi". -/
theorem C1_counterexample :
    create_kubernetes_patch (some c1Workload) none =
      .ok (some (mkPatch ("Deployment") ("web") ("default")
        [{ name := "app"
         , resources := { requests := some { cpu := none, memory := some ("0Mi") }
                        , limits := none } }]), []) ∧
    toString (floorTimes1024 ⟨-1, 2048⟩) ++ "Mi" = "-1Mi" ∧
    ("0Mi" : String) ≠ "-1Mi" :=
  ⟨rfl, rfl, by decide⟩

/-- Claim C2 (amended): a considered container's resource block is attached to
the output patch if and only if its recommendation is truthy and at least one
of its requests/limits maps is present and non-empty; a map that is non-empty
but contains neither cpuCores nor memoryGib still causes attachment, with an
empty emitted map.  In particular a container whose recommendation has empty
requests and empty limits never appears in the output. -/
theorem C2_attach_iff (w : Workload) (f : Option String) (nm ns : String)
    (cs : List Container) (p : Patch) (ds : List Diag) (c : Container)
    (hnm : w.name = some nm) (hns : w.nspace = some ns)
    (hcs : containersToUpdate w f = .ok cs)
    (hp : create_kubernetes_patch (some w) f = .ok (some p, ds)) :
    patchContainers p = cs.filterMap emitContainer ∧
    ((emitContainer c).isSome = true ↔
      ∃ r, c.recommendation = some r ∧
        (truthyRR r.requests = true ∨ truthyRR r.limits = true)) := by
  obtain ⟨hpe, -⟩ := create_inv w f nm ns cs p ds hnm hns hcs hp
  exact ⟨by rw [hpe, patchContainers_mkPatch], emitContainer_isSome_iff c⟩

/-- Witness for the amended claim C2 at a concrete input. -/
theorem C2_witness :
    containersToUpdate c2Workload none = .ok [c2Container] ∧
    (patchContainers (mkPatch ("Deployment") ("web") ("default")
        [{ name := "app"
         , resources := { requests := some { cpu := none, memory := none }
                        , limits := none } }]) =
      [c2Container].filterMap emitContainer ∧
    ((emitContainer c2Container).isSome = true ↔
      ∃ r, c2Container.recommendation = some r ∧
        (truthyRR r.requests = true ∨ truthyRR r.limits = true))) :=
  ⟨rfl, C2_attach_iff c2Workload none ("web") ("default") [c2Container]
    (mkPatch ("Deployment") ("web") ("default")
      [{ name := "app"
       , resources := { requests := some { cpu := none, memory := none }
                      , limits := none } }]) [] c2Container rfl rfl rfl rfl⟩

/-- Claim C2 counterexample: a container whose recommendation's requests map
is non-empty but holds neither cpuCores nor memoryGib (extra = 1) produces
zero cpu/memory fields, yet its resource block — with an empty emitted
requests map — is attached to the output, refuting the claim's "only if"
direction. -/
theorem C2_counterexample :
    create_kubernetes_patch (some c2Workload) none =
      .ok (some (mkPatch ("Deployment") ("web") ("default")
        [{ name := "app"
         , resources := { requests := some { cpu := none, memory := none }
                        , limits := none } }]), []) ∧
    fieldCount { name := "app"
               , resources := { requests := some { cpu := none, memory := none }
                              , limits := none } } = 0 :=
  ⟨rfl, rfl⟩

/-- Claim C8: a container with an absent or null recommendation contributes no
block: the output container list is exactly the considered containers filtered
through `emitContainer`, and `emitContainer` maps any container without a
recommendation to none. -/
theorem C8_no_recommendation_excluded (w : Workload) (f : Option String)
    (nm ns : String) (cs : List Container) (p : Patch) (ds : List Diag)
    (c : Container)
    (hnm : w.name = some nm) (hns : w.nspace = some ns)
    (hcs : containersToUpdate w f = .ok cs)
    (hp : create_kubernetes_patch (some w) f = .ok (some p, ds))
    (hcr : c.recommendation = none) :
    patchContainers p = cs.filterMap emitContainer ∧ emitContainer c = none := by
  obtain ⟨hpe, -⟩ := create_inv w f nm ns cs p ds hnm hns hcs hp
  exact ⟨by rw [hpe, patchContainers_mkPatch], by simp [emitContainer, hcr]⟩

/-- Witness for claim C8 at a concrete input: a workload with one
recommendation-less container and one recommended container emits only the
latter. -/
theorem C8_witness :
    c8NoRec.recommendation = none ∧
    (patchContainers c4Patch = [c8NoRec, c4Container].filterMap emitContainer ∧
     emitContainer c8NoRec = none) :=
  ⟨rfl, C8_no_recommendation_excluded c8Workload none ("web") ("default")
    [c8NoRec, c4Container] c4Patch [] c8NoRec rfl rfl rfl rfl rfl⟩

/-- Claim C9: the sequence of container names in the output patch is the input
container sequence restricted to the considered containers that emit a block —
output ordering matches input ordering, filtered — and is a subsequence of the
input container name sequence. -/
theorem C9_output_order (w : Workload) (f : Option String) (nm ns : String)
    (cs : List Container) (p : Patch) (ds : List Diag)
    (hnm : w.name = some nm) (hns : w.nspace = some ns)
    (hcs : containersToUpdate w f = .ok cs)
    (hp : create_kubernetes_patch (some w) f = .ok (some p, ds)) :
    ((patchContainers p).map ContainerPatch.name) =
      ((cs.filter fun c => (emitContainer c).isSome).map Container.name) ∧
    ((patchContainers p).map ContainerPatch.name).Sublist
      (w.containers.map Container.name) := by
  obtain ⟨hpe, -⟩ := create_inv w f nm ns cs p ds hnm hns hcs hp
  have h1 : ((patchContainers p).map ContainerPatch.name) =
      ((cs.filter fun c => (emitContainer c).isSome).map Container.name) := by
    rw [hpe, patchContainers_mkPatch, filterMap_emit_names]
  refine ⟨h1, ?_⟩
  rw [h1]
  exact ((List.filter_sublist cs).map Container.name).trans
    ((containersToUpdate_sublist w f cs hcs).map Container.name)

/-- Witness for claim C9 at a concrete input: with one skipped and one
emitted container the output names are the filtered input names, in order. -/
theorem C9_witness :
    ((patchContainers c4Patch).map ContainerPatch.name) =
      (([c8NoRec, c4Container].filter fun c => (emitContainer c).isSome).map
        Container.name) ∧
    ((patchContainers c4Patch).map ContainerPatch.name).Sublist
      (c8Workload.containers.map Container.name) :=
  C9_output_order c8Workload none ("web") ("default") [c8NoRec, c4Container]
    c4Patch [] rfl rfl rfl rfl

/-- Claim C5: the locator returns the first element, in input order, whose
name and namespace both equal the targets; elements before it are walked past,
so the first match wins when duplicates exist. -/
theorem C5_first_match (d : WorkloadsData) (tn tns : String)
    (l1 l2 : List Workload) (w : Workload)
    (hws : d.workloads = some (l1 ++ w :: l2))
    (hskip : ∀ v ∈ l1, scanSkips tn tns v)
    (hn : w.name = some tn) (hs : w.nspace = some tns) :
    find_workload d tn tns = .ok (some w) := by
  simp only [find_workload, hws]
  rw [findWorkloadAux_append_skip tn tns l1 (w :: l2) hskip]
  simp [findWorkloadAux, hn, hs]

/-- Witness for claim C5 at a concrete input: with a non-matching element
before and a duplicate match after, the first match is returned. -/
theorem C5_witness :
    find_workload { workloads := some [c5Other, c5First, c5Dup] } ("web") ("default") =
      .ok (some c5First) :=
  C5_first_match { workloads := some [c5Other, c5First, c5Dup] } ("web") ("default")
    [c5Other] [c5Dup] c5First rfl
    (fun v hv => by
      simp only [List.mem_singleton] at hv
      subst hv
      exact ⟨"other", rfl, fun h => absurd h (by decide)⟩)
    rfl rfl

/-- Claim C6: a fetched value lacking the `workloads` field makes the locator
fail with the schema error and the run produce no output; a value whose
`workloads` sequence has no element matching the target (every element is
walked past) makes the locator yield the not-found signal `.ok none` — not an
exception, distinguishable from the schema error — and the run produce no
output. -/
theorem C6_schema_vs_not_found (d : WorkloadsData) (tn tns : String)
    (f : Option String) :
    (d.workloads = none →
      find_workload d tn tns = .error .schemaError ∧
      runPipeline d tn tns f =
        { exitCode := 1, output := none, errLines := [.schemaFormat] }) ∧
    (∀ ws, d.workloads = some ws → (∀ v ∈ ws, scanSkips tn tns v) →
      find_workload d tn tns = .ok none ∧
      (∀ e : FindErr,
        (Except.ok (none : Option Workload) : Except FindErr (Option Workload)) ≠
          Except.error e) ∧
      runPipeline d tn tns f =
        { exitCode := 1, output := none, errLines := [.workloadNotFound tn tns] }) := by
  constructor
  · intro h
    refine ⟨by simp [find_workload, h], ?_⟩
    simp [runPipeline, find_workload, h]
  · intro ws hws hskip
    have hf : find_workload d tn tns = .ok none := by
      simp only [find_workload, hws]
      exact findWorkloadAux_skip_all tn tns ws hskip
    refine ⟨hf, fun e h => Except.noConfusion h, ?_⟩
    simp [runPipeline, hf]

/-- Witness for claim C6 at concrete inputs: a response without `workloads`,
and a response whose single workload does not match the target. -/
theorem C6_witness :
    (find_workload c6DataMissing ("absent") ("default") = .error .schemaError ∧
     runPipeline c6DataMissing ("absent") ("default") none =
       { exitCode := 1, output := none, errLines := [.schemaFormat] }) ∧
    (find_workload c6DataNoMatch ("absent") ("default") = .ok none ∧
     (∀ e : FindErr,
       (Except.ok (none : Option Workload) : Except FindErr (Option Workload)) ≠
         Except.error e) ∧
     runPipeline c6DataNoMatch ("absent") ("default") none =
       { exitCode := 1, output := none
       , errLines := [.workloadNotFound ("absent") ("default")] }) :=
  ⟨(C6_schema_vs_not_found c6DataMissing ("absent") ("default") none).1 rfl,
   (C6_schema_vs_not_found c6DataNoMatch ("absent") ("default") none).2
     [c5Other] rfl
     (fun v hv => by
       simp only [List.mem_singleton] at hv
       subst hv
       exact ⟨"other", rfl, fun h => absurd h (by decide)⟩)⟩

/-- Claim C7 (amended): for every non-empty container filter X such that no
container of the located workload is named X, the patch builder returns no
patch and reports ContainerNotFound, and the whole run terminates with exit
code 1 and no output document.  (The empty string is Python-falsy at source
line 64 and means "no filter"; see the counterexample.) -/
theorem C7_container_not_found (d : WorkloadsData) (tn tns X : String)
    (w : Workload) (hX : X ≠ "")
    (hfind : find_workload d tn tns = .ok (some w))
    (hnone : ∀ c ∈ w.containers, c.name ≠ X) :
    create_kubernetes_patch (some w) (some X) =
      .ok (none, [.containerNotFound X]) ∧
    runPipeline d tn tns (some X) =
      { exitCode := 1, output := none
      , errLines := [.containerNotFound X, .noRecommendations tn] } := by
  have hwf : w.name = some tn ∧ w.nspace = some tns := by
    unfold find_workload at hfind
    cases hd : d.workloads with
    | none => rw [hd] at hfind; cases hfind
    | some ws => rw [hd] at hfind; exact findWorkloadAux_ok_some tn tns ws w hfind
  have hfo : w.containers.find? (fun c => c.name == X) = none := by
    rw [List.find?_eq_none]
    intro c hc
    simpa using hnone c hc
  have hcp : create_kubernetes_patch (some w) (some X) =
      .ok (none, [.containerNotFound X]) := by
    simp [create_kubernetes_patch, hwf.1, hwf.2, containersToUpdate, hX, hfo]
  refine ⟨hcp, ?_⟩
  simp [runPipeline, hfind, hcp]

/-- Witness for the amended claim C7 at a concrete input: filtering the
located workload by a non-empty container name that does not occur. -/
theorem C7_witness :
    ("nope" : String) ≠ "" ∧
    (∀ c ∈ c5First.containers, c.name ≠ "nope") ∧
    (create_kubernetes_patch (some c5First) (some ("nope")) =
      .ok (none, [.containerNotFound ("nope")]) ∧
    runPipeline { workloads := some [c5First] } ("web") ("default") (some ("nope")) =
      { exitCode := 1, output := none
      , errLines := [.containerNotFound ("nope"), .noRecommendations ("web")] }) :=
  ⟨by decide, by decide,
   C7_container_not_found { workloads := some [c5First] } ("web") ("default")
     ("nope") c5First (by decide) rfl (by decide)⟩

/-- Claim C7 counterexample: the empty container filter is falsy in Python,
so with X = "" — a name no container bears — the program does not report
ContainerNotFound: it considers all containers, emits a patch, and exits 0
with output, refuting the claim at X = "". -/
theorem C7_counterexample :
    c5First.containers.map Container.name = ["app"] ∧
    ("app" : String) ≠ "" ∧
    create_kubernetes_patch (some c5First) (some ("")) = .ok (some c4Patch, []) ∧
    runPipeline { workloads := some [c5First] } ("web") ("default") (some ("")) =
      { exitCode := 0, output := some c4Patch, errLines := [] } :=
  ⟨rfl, by decide, rfl, rfl⟩

/-- Claim C10 counterexample: the element before the match has a name that
does not equal the target and lacks the namespace field, yet the scan does not
raise — Python's lazy `and` never reads its namespace — and the later match is
returned, refuting the claim that both fields of every earlier element are
accessed unconditionally. -/
theorem C10_counterexample :
    find_workload { workloads := some [c10BadEarlier, c10Good] } ("web") ("default") =
      .ok (some c10Good) ∧
    (Except.ok (some c10Good) : Except FindErr (Option Workload)) ≠
      Except.error (.keyError ("namespace")) :=
  ⟨rfl, fun h => Except.noConfusion h⟩

/-- Claim C10 (amended): during the scan, the name field of each element
before the first match is read unconditionally, and the namespace field only
when that element's name equals the target; hence the scan raises the
key-lookup error exactly when such an element lacks its name, or has the
target name but lacks its namespace — even when a matching workload occurs
later in the sequence. -/
theorem C10_key_access (d : WorkloadsData) (tn tns : String)
    (l1 l2 : List Workload) (v : Workload)
    (hws : d.workloads = some (l1 ++ v :: l2))
    (hskip : ∀ u ∈ l1, scanSkips tn tns u) :
    (v.name = none → find_workload d tn tns = .error (.keyError ("name"))) ∧
    (v.name = some tn → v.nspace = none →
      find_workload d tn tns = .error (.keyError ("namespace"))) := by
  have hred : find_workload d tn tns = findWorkloadAux tn tns (v :: l2) := by
    simp only [find_workload, hws]
    exact findWorkloadAux_append_skip tn tns l1 (v :: l2) hskip
  constructor
  · intro hv
    rw [hred]
    simp [findWorkloadAux, hv]
  · intro hv hvs
    rw [hred]
    simp [findWorkloadAux, hv, hvs]

/-- Witness for the amended claim C10 at concrete inputs: a scanned element
lacking its name raises the name key error; one with the target name but no
namespace raises the namespace key error even though a match follows it. -/
theorem C10_witness :
    find_workload { workloads := some [c5Other, c10NoName] } ("web") ("default") =
      .error (.keyError ("name")) ∧
    find_workload { workloads := some [c10NoNs, c10Good] } ("web") ("default") =
      .error (.keyError ("namespace")) :=
  ⟨(C10_key_access { workloads := some [c5Other, c10NoName] } ("web") ("default")
      [c5Other] [] c10NoName rfl
      (fun u hu => by
        simp only [List.mem_singleton] at hu
        subst hu
        exact ⟨"other", rfl, fun h => absurd h (by decide)⟩)).1 rfl,
   (C10_key_access { workloads := some [c10NoNs, c10Good] } ("web") ("default")
      [] [c10Good] c10NoNs rfl
      (fun u hu => absurd hu (List.not_mem_nil u))).2 rfl rfl⟩
